import Mathlib

/-!
Shallow embedding of the BigQuery facade class from src/index.ts
(shivam-tripathi/bigquery-wrapper).

The facade keeps three pieces of mutable state: the client handle
(`this.client`, null until a successful `init`), the dataset cache
(`this.datasets`, a string-keyed record), and the table cache
(`this.tables`, keyed by the string `datasetName + "." + tableName`).
Every public operation is embedded as a pure function from the facade
state plus the outcomes of the remote collaborator calls it performs, to
a result, a successor state, and the ordered list of remote calls it
issued.  Thrown JavaScript errors are modelled by the `FacadeError`
inductive, one constructor per throw site of the source, each carrying
the exact message the source builds; `rethrown` carries an unmodified
collaborator error object.  Event emission (`this.log`, `this.success`,
`this.error`) is fire-and-forget in the source, no modelled claim
observes it, so it is not tracked here.
-/

namespace BigQueryWrapper

/-- Handle returned by `this.client.dataset(name)`: it is determined by the
dataset name it was constructed from. -/
structure DatasetHandle where
  name : String
deriving DecidableEq

/-- Handle returned by `dataset.table(tableName)`: determined by the parent
dataset name and the table name. -/
structure TableHandle where
  datasetName : String
  tableName : String
deriving DecidableEq

/-- One entry of the per-row error list inside a PartialFailureError. -/
structure RowError where
  reason : String
  message : String
deriving DecidableEq

/-- One per-row rejection of a partial insert failure: the offending row
(a flat key-value record) and its errors. -/
structure RowRejection where
  row : List (String × String)
  errors : List RowError
deriving DecidableEq

/-- A JavaScript error object thrown by the remote collaborator, with its
own enumerable properties: `name`, `message`, the optional per-row
rejection payload `errors` (present on a PartialFailureError), and the
remaining enumerable string-valued properties. -/
structure JsError where
  name : String
  message : String
  errors : Option (List RowRejection)
  extra : List (String × String)
deriving DecidableEq

/-- One element of a query response's `errors` array. -/
structure ResponseError where
  reason : String
  message : String
deriving DecidableEq

/-- The `response` object returned by `job.getQueryResults()`: `errors` is
`some l` exactly when the response's errors field is the array `l`
(`Array.isArray` true), `none` when the field is absent or not an array;
`jobComplete` is the JavaScript truthiness of `response.jobComplete`. -/
structure QueryResponse where
  errors : Option (List ResponseError)
  jobComplete : Bool
deriving DecidableEq

/-- A result row: a flat key-value record. -/
abbrev Row := List (String × String)

/-- The triple `[rows, _, response]` destructured from
`job.getQueryResults()` (the middle pagination token is unused). -/
structure QueryResults where
  rows : List Row
  response : QueryResponse
deriving DecidableEq

/-- The streaming-buffer section of table metadata, when present. -/
structure StreamingBuffer where
  estimatedRows : Nat
  estimatedBytes : Nat
deriving DecidableEq

/-- Table metadata returned by `table.getMetadata()`: `streamingBuffer` is
`none` exactly when the field is absent, `undefined` or `null`
(the source tests `metadata.streamingBuffer == null`). -/
structure Metadata where
  streamingBuffer : Option StreamingBuffer
deriving DecidableEq

/-- The schema argument of `createTable`: a list of (name, type) pairs.
The facade only tests its presence (`!schema`), never its content. -/
abbrev Schema := List (String × String)

/-- Errors thrown by the facade, one constructor per throw site.
`nullClient prop` is the TypeError raised by reading property `prop` of
the null `this.client`; the `message` arguments carry the exact message
string the source builds; `rethrown ex` is a collaborator error object
propagated unchanged. -/
inductive FacadeError where
  | nullClient (prop : String)
  | datasetNotFound (message : String)
  | tableNotFound (message : String)
  | schemaRequired (message : String)
  | partialInsert (message : String)
  | waitFailure (message : String)
  | queryExecutionFailure (message : String)
  | queryIncomplete (message : String)
  | rethrown (ex : JsError)
deriving DecidableEq

/-- The remote collaborator calls a facade operation can issue, in the
order the source issues them. -/
inductive RemoteCall where
  | getDatasets
  | datasetExists (datasetName : String)
  | datasetCreate (datasetName : String)
  | tableExists (datasetName tableName : String)
  | tableCreate (datasetName tableName : String) (schema : Schema)
  | tableInsert (datasetName tableName : String)
  | createQueryJob (queryText : String) (useLegacySql : Bool) (maximumBillingTier : Nat)
  | getQueryResults
  | createQueryStream (queryText : String) (useLegacySql : Bool) (maximumBillingTier : Nat)
  | getMetadata (datasetName tableName : String)
deriving DecidableEq

/-- The mutable state of one facade instance: whether `this.client` is
non-null, and the two caches.  The caches are newest-first association
lists: writing conses, lookup takes the first hit, which matches
overwrite semantics of the JavaScript record fields. -/
structure BQState where
  clientInit : Bool
  datasets : List (String × DatasetHandle)
  tables : List (String × TableHandle)
deriving DecidableEq

/-- Lookup in a string-keyed record (first hit wins). -/
def recLookup {α : Type} : List (String × α) → String → Option α
  | [], _ => none
  | (k1, v) :: rest, k => if k1 = k then some v else recLookup rest k

instance {ε α : Type} [DecidableEq ε] [DecidableEq α] : DecidableEq (Except ε α) := fun a b =>
  match a, b with
  | .ok a1, .ok b1 =>
    if h : a1 = b1 then isTrue (by rw [h]) else isFalse (fun hh => h (Except.ok.inj hh))
  | .ok _, .error _ => isFalse (fun hh => Except.noConfusion hh)
  | .error _, .ok _ => isFalse (fun hh => Except.noConfusion hh)
  | .error a1, .error b1 =>
    if h : a1 = b1 then isTrue (by rw [h]) else isFalse (fun hh => h (Except.error.inj hh))

/-- Whether an `Except` result is a success. -/
def exOk {ε α : Type} : Except ε α → Bool
  | .ok _ => true
  | .error _ => false

/-- The outcome of running one facade operation: the returned value or
thrown error, the successor facade state, and the remote calls issued. -/
structure OpResult (α : Type) where
  result : Except FacadeError α
  state : BQState
  calls : List RemoteCall
deriving DecidableEq

/-- The state of a freshly constructed facade: `this.client = null`,
`this.datasets = {}`, `this.tables = {}`. -/
def initialState : BQState := ⟨false, [], []⟩

/-- Embedding of `init()`: builds a client and probes connectivity with
one `getDatasets` call; on success stores the client, on failure the
remote error propagates untouched and the client stays null. -/
def init (st : BQState) (getDatasetsResult : Except JsError Unit) : OpResult Unit :=
  match getDatasetsResult with
  | .error e => ⟨.error (.rethrown e), st, [.getDatasets]⟩
  | .ok _ => ⟨.ok (), { st with clientInit := true }, [.getDatasets]⟩

/-- Embedding of `createDataSet(datasetName)`: dereferences the client
(TypeError when null), probes `dataset.exists()`, creates the dataset
when absent, and in either success branch caches and returns the
handle. -/
def createDataSet (st : BQState) (datasetName : String)
    (existsResult : Except JsError Bool) (createResult : Except JsError Unit) :
    OpResult DatasetHandle :=
  if st.clientInit = false then
    ⟨.error (.nullClient ("dataset")), st, []⟩
  else
    let dataset : DatasetHandle := ⟨datasetName⟩
    match existsResult with
    | .error e => ⟨.error (.rethrown e), st, [.datasetExists datasetName]⟩
    | .ok doesExist =>
      if doesExist = false then
        match createResult with
        | .error e =>
          ⟨.error (.rethrown e), st, [.datasetExists datasetName, .datasetCreate datasetName]⟩
        | .ok _ =>
          ⟨.ok dataset, { st with datasets := (datasetName, dataset) :: st.datasets },
            [.datasetExists datasetName, .datasetCreate datasetName]⟩
      else
        ⟨.ok dataset, { st with datasets := (datasetName, dataset) :: st.datasets },
          [.datasetExists datasetName]⟩

/-- Embedding of `getDataset(datasetName)`: pure cache lookup, throws a
ReferenceError when the name is not cached. -/
def getDataset (st : BQState) (datasetName : String) : Except FacadeError DatasetHandle :=
  match recLookup st.datasets datasetName with
  | none => .error (.datasetNotFound ("Dataset \"" ++ datasetName ++ "\" not found"))
  | some dataset => .ok dataset

/-- Embedding of `createTable(datasetName, tableName, schema)`: resolves
the parent dataset from the cache (throws when absent), probes
`table.exists()`, throws a schema-required ReferenceError when the table
is absent and no schema was given, creates the table when absent with a
schema, and in either success branch caches the handle under the key
`datasetName ++ "." ++ tableName`. -/
def createTable (st : BQState) (datasetName tableName : String) (schema : Option Schema)
    (existsResult : Except JsError Bool) (createResult : Except JsError Unit) :
    OpResult TableHandle :=
  match getDataset st datasetName with
  | .error e => ⟨.error e, st, []⟩
  | .ok dataset =>
    let table : TableHandle := ⟨dataset.name, tableName⟩
    match existsResult with
    | .error e => ⟨.error (.rethrown e), st, [.tableExists datasetName tableName]⟩
    | .ok doesExist =>
      if doesExist = false then
        match schema with
        | none =>
          ⟨.error (.schemaRequired
              ("\"" ++ datasetName ++ "." ++ tableName ++ "\" does not exists and no schema was given")),
            st, [.tableExists datasetName tableName]⟩
        | some s =>
          match createResult with
          | .error e =>
            ⟨.error (.rethrown e), st,
              [.tableExists datasetName tableName, .tableCreate datasetName tableName s]⟩
          | .ok _ =>
            ⟨.ok table,
              { st with tables := (datasetName ++ "." ++ tableName, table) :: st.tables },
              [.tableExists datasetName tableName, .tableCreate datasetName tableName s]⟩
      else
        ⟨.ok table,
          { st with tables := (datasetName ++ "." ++ tableName, table) :: st.tables },
          [.tableExists datasetName tableName]⟩

/-- Embedding of `getTable(datasetName, tableName)`: pure lookup under the
key `datasetName ++ "." ++ tableName`, throws a ReferenceError when
absent. -/
def getTable (st : BQState) (datasetName tableName : String) : Except FacadeError TableHandle :=
  match recLookup st.tables (datasetName ++ "." ++ tableName) with
  | none =>
    .error (.tableNotFound
      ("Table \"<" ++ tableName ++ ">\" not found in \"<" ++ datasetName ++ ">\""))
  | some table => .ok table

/-! JSON serialization model.  `insert` converts a PartialFailureError
`ex` into `new Error(JSON.stringify(ex, null, 2))`.  The encoder below
models `JSON.stringify` on the error object's own enumerable properties
(`name`, `message`, the per-row rejection payload `errors`, and the
remaining properties), producing compact JSON; the pretty-printing
whitespace of the `(null, 2)` arguments carries no information and is
not reproduced.  Strings are escaped so that the encoding is
unambiguous, which is what the losslessness claim is about. -/

/-- The character list of a string literal. -/
def strL (s : String) : List Char := s.data

/-- JSON string-body escaping: backslash-escape the quote and backslash
characters. -/
def escapeList : List Char → List Char
  | [] => []
  | c :: cs => if c = '\\' ∨ c = '\"' then '\\' :: c :: escapeList cs else c :: escapeList cs

/-- A JSON string literal: quoted, escaped body. -/
def encStringL (s : String) : List Char := '\"' :: (escapeList s.data ++ ['\"'])

/-- One `"key":"value"` member of a JSON object. -/
def encPairL (p : String × String) : List Char := encStringL p.1 ++ ':' :: encStringL p.2

/-- Comma-separated encoded items. -/
def encItemsL {α : Type} (encA : α → List Char) : List α → List Char
  | [] => []
  | [a] => encA a
  | a :: rest => encA a ++ ',' :: encItemsL encA rest

/-- A JSON object of string-valued members. -/
def encObjL (kvs : List (String × String)) : List Char :=
  '\x7b' :: (encItemsL encPairL kvs ++ ['\x7d'])

/-- A JSON array of encoded items. -/
def encArrL {α : Type} (encA : α → List Char) (l : List α) : List Char :=
  '[' :: (encItemsL encA l ++ [']'])

/-- Encoding of one per-row error. -/
def encRowErrorL (e : RowError) : List Char :=
  strL ("\x7b\"reason\":") ++ encStringL e.reason ++ strL (",\"message\":") ++
    encStringL e.message ++ strL ("\x7d")

/-- Encoding of one per-row rejection. -/
def encRowRejectionL (r : RowRejection) : List Char :=
  strL ("\x7b\"row\":") ++ encObjL r.row ++ strL (",\"errors\":") ++
    encArrL encRowErrorL r.errors ++ strL ("\x7d")

/-- Encoding of the optional rejection payload (`null` when absent). -/
def encErrorsFieldL : Option (List RowRejection) → List Char
  | none => strL ("null")
  | some l => encArrL encRowRejectionL l

/-- Encoding of a whole collaborator error object. -/
def encJsErrorL (ex : JsError) : List Char :=
  strL ("\x7b\"name\":") ++ encStringL ex.name ++ strL (",\"message\":") ++
    encStringL ex.message ++ strL (",\"errors\":") ++ encErrorsFieldL ex.errors ++
    strL (",\"extra\":") ++ encObjL ex.extra ++ strL ("\x7d")

/-- Model of `JSON.stringify(ex, null, 2)` on a collaborator error. -/
def jsonStringifyError (ex : JsError) : String := String.mk (encJsErrorL ex)

/-- Embedding of `insert(rows, datasetName, tableName)`: resolves the
table from the cache (throws when absent), performs the streaming
insert, converts a PartialFailureError into
`new Error(JSON.stringify(ex, null, 2))`, and rethrows any other remote
error unchanged. -/
def insert (st : BQState) (rows : List Row) (datasetName tableName : String)
    (insertResult : Except JsError Unit) : OpResult Unit :=
  match getTable st datasetName tableName with
  | .error e => ⟨.error e, st, []⟩
  | .ok _ =>
    match insertResult with
    | .ok _ => ⟨.ok (), st, [.tableInsert datasetName tableName]⟩
    | .error ex =>
      if ex.name = "PartialFailureError" then
        ⟨.error (.partialInsert (jsonStringifyError ex)), st, [.tableInsert datasetName tableName]⟩
      else
        ⟨.error (.rethrown ex), st, [.tableInsert datasetName tableName]⟩

/-- Embedding of `query(rawQuery, useLegacySql, maximumBillingTier)`:
dereferences the client (TypeError when null), submits the job
(`createQueryJob` failures propagate unchanged), waits once
(`getQueryResults`; a wait failure is replaced by `new Error(e.message)`
after an error event), then: when the response's errors field is an
array, throws the messages joined with `;`; else when the job is not
complete, throws the pagination error; else returns the rows. -/
def query (st : BQState) (rawQuery : String) (useLegacySql : Bool) (maximumBillingTier : Nat)
    (jobResult : Except JsError Unit) (waitResult : Except JsError QueryResults) :
    OpResult (List Row) :=
  if st.clientInit = false then
    ⟨.error (.nullClient ("createQueryJob")), st, []⟩
  else
    match jobResult with
    | .error e =>
      ⟨.error (.rethrown e), st, [.createQueryJob rawQuery useLegacySql maximumBillingTier]⟩
    | .ok _ =>
      match waitResult with
      | .error e =>
        ⟨.error (.waitFailure e.message), st,
          [.createQueryJob rawQuery useLegacySql maximumBillingTier, .getQueryResults]⟩
      | .ok results =>
        match results.response.errors with
        | some errs =>
          ⟨.error (.queryExecutionFailure
              (String.intercalate ";" (errs.map ResponseError.message))), st,
            [.createQueryJob rawQuery useLegacySql maximumBillingTier, .getQueryResults]⟩
        | none =>
          if results.response.jobComplete = false then
            ⟨.error (.queryIncomplete ("Job not complete: Might need to implement pagination")),
              st, [.createQueryJob rawQuery useLegacySql maximumBillingTier, .getQueryResults]⟩
          else
            ⟨.ok results.rows, st,
              [.createQueryJob rawQuery useLegacySql maximumBillingTier, .getQueryResults]⟩

/-- Embedding of `queryStream(query, useLegacySql, maximumBillingTier)`:
dereferences the client (TypeError when null) and hands the options to
`createQueryStream`; the returned stream itself is opaque here. -/
def queryStream (st : BQState) (queryText : String) (useLegacySql : Bool)
    (maximumBillingTier : Nat) : OpResult Unit :=
  if st.clientInit = false then
    ⟨.error (.nullClient ("createQueryStream")), st, []⟩
  else
    ⟨.ok (), st, [.createQueryStream queryText useLegacySql maximumBillingTier]⟩

/-- Embedding of `updateAvailable(tableName, datasetName)`: resolves the
table from the cache (throws when absent), fetches live metadata
(failures propagate unchanged), and returns true exactly when
`metadata.streamingBuffer == null`. -/
def updateAvailable (st : BQState) (tableName datasetName : String)
    (metadataResult : Except JsError Metadata) : OpResult Bool :=
  match getTable st datasetName tableName with
  | .error e => ⟨.error e, st, []⟩
  | .ok _ =>
    match metadataResult with
    | .error e => ⟨.error (.rethrown e), st, [.getMetadata datasetName tableName]⟩
    | .ok metadata =>
      match metadata.streamingBuffer with
      | none => ⟨.ok true, st, [.getMetadata datasetName tableName]⟩
      | some _ => ⟨.ok false, st, [.getMetadata datasetName tableName]⟩

/-! Decoder for the JSON serialization model.  The decoder is a
verification artifact, not part of the source: it exhibits the inverse
whose existence the losslessness property asserts. -/

/-- Consume an exact literal prefix. -/
def parseExactL : List Char → List Char → Option (List Char)
  | [], cs => some cs
  | _ :: _, [] => none
  | l :: ls, c :: cs => if c = l then parseExactL ls cs else none

/-- Read the escaped body of a JSON string up to its closing quote,
accumulating characters in reverse. -/
def parseStrAux : List Char → List Char → Option (String × List Char)
  | [], _ => none
  | c :: cs, acc =>
    if c = '\\' then
      match cs with
      | [] => none
      | d :: ds => parseStrAux ds (d :: acc)
    else if c = '\"' then some (String.mk acc.reverse, cs)
    else parseStrAux cs (c :: acc)

/-- Read a quoted JSON string literal. -/
def parseStrL : List Char → Option (String × List Char)
  | [] => none
  | c :: cs => if c = '\"' then parseStrAux cs [] else none

/-- Read one `"key":"value"` member. -/
def parsePairL (cs : List Char) : Option ((String × String) × List Char) :=
  match parseStrL cs with
  | none => none
  | some (k, cs1) =>
    match cs1 with
    | [] => none
    | c :: cs2 =>
      if c = ':' then
        match parseStrL cs2 with
        | none => none
        | some (v, cs3) => some ((k, v), cs3)
      else none

/-- Read one or more comma-separated items up to the closing character
(fuel-bounded recursion). -/
def parseItemsL {α : Type} (elem : List Char → Option (α × List Char)) (close : Char) :
    Nat → List Char → Option (List α × List Char)
  | 0, _ => none
  | fuel + 1, cs =>
    match elem cs with
    | none => none
    | some (a, rest) =>
      match rest with
      | [] => none
      | c :: rest2 =>
        if c = close then some ([a], rest2)
        else if c = ',' then
          match parseItemsL elem close fuel rest2 with
          | none => none
          | some (as, r) => some (a :: as, r)
        else none

/-- Read a delimited container (object or array) of items. -/
def parseContainerL {α : Type} (openC closeC : Char)
    (elem : List Char → Option (α × List Char)) (cs : List Char) :
    Option (List α × List Char) :=
  match cs with
  | [] => none
  | c :: rest =>
    if c = openC then
      match rest with
      | [] => none
      | d :: rest2 =>
        if d = closeC then some ([], rest2)
        else parseItemsL elem closeC (d :: rest2).length (d :: rest2)
    else none

/-- Read one encoded per-row error. -/
def parseRowErrorL (cs : List Char) : Option (RowError × List Char) :=
  match parseExactL (strL ("\x7b\"reason\":")) cs with
  | none => none
  | some cs1 =>
    match parseStrL cs1 with
    | none => none
    | some (reason, cs2) =>
      match parseExactL (strL (",\"message\":")) cs2 with
      | none => none
      | some cs3 =>
        match parseStrL cs3 with
        | none => none
        | some (message, cs4) =>
          match parseExactL (strL ("\x7d")) cs4 with
          | none => none
          | some cs5 => some (⟨reason, message⟩, cs5)

/-- Read one encoded per-row rejection. -/
def parseRowRejectionL (cs : List Char) : Option (RowRejection × List Char) :=
  match parseExactL (strL ("\x7b\"row\":")) cs with
  | none => none
  | some cs1 =>
    match parseContainerL '\x7b' '\x7d' parsePairL cs1 with
    | none => none
    | some (row, cs2) =>
      match parseExactL (strL (",\"errors\":")) cs2 with
      | none => none
      | some cs3 =>
        match parseContainerL '[' ']' parseRowErrorL cs3 with
        | none => none
        | some (errs, cs4) =>
          match parseExactL (strL ("\x7d")) cs4 with
          | none => none
          | some cs5 => some (⟨row, errs⟩, cs5)

/-- Read the optional rejection payload (`null` or an array). -/
def parseErrorsFieldL (cs : List Char) : Option (Option (List RowRejection) × List Char) :=
  match parseExactL (strL ("null")) cs with
  | some rest => some (none, rest)
  | none =>
    match parseContainerL '[' ']' parseRowRejectionL cs with
    | none => none
    | some (l, rest) => some (some l, rest)

/-- Decode a serialized collaborator error; inverse of
`jsonStringifyError`. -/
def decodeJsError (s : String) : Option JsError :=
  match parseExactL (strL ("\x7b\"name\":")) s.data with
  | none => none
  | some cs1 =>
    match parseStrL cs1 with
    | none => none
    | some (name, cs2) =>
      match parseExactL (strL (",\"message\":")) cs2 with
      | none => none
      | some cs3 =>
        match parseStrL cs3 with
        | none => none
        | some (message, cs4) =>
          match parseExactL (strL (",\"errors\":")) cs4 with
          | none => none
          | some cs5 =>
            match parseErrorsFieldL cs5 with
            | none => none
            | some (errs, cs6) =>
              match parseExactL (strL (",\"extra\":")) cs6 with
              | none => none
              | some cs7 =>
                match parseContainerL '\x7b' '\x7d' parsePairL cs7 with
                | none => none
                | some (extra, cs8) =>
                  match parseExactL (strL ("\x7d")) cs8 with
                  | none => none
                  | some cs9 =>
                    match cs9 with
                    | [] => some ⟨name, message, errs, extra⟩
                    | _ :: _ => none

theorem parseExactL_append (lit rest : List Char) : parseExactL lit (lit ++ rest) = some rest := by
  induction lit with
  | nil => rfl
  | cons c cs ih => simp [parseExactL, ih]

theorem escapeList_esc (c : Char) (cs : List Char) (h : c = '\\' ∨ c = '\"') :
    escapeList (c :: cs) = '\\' :: c :: escapeList cs := by
  simp only [escapeList, if_pos h]

theorem escapeList_other (c : Char) (cs : List Char) (h1 : c ≠ '\\') (h2 : c ≠ '\"') :
    escapeList (c :: cs) = c :: escapeList cs := by
  simp only [escapeList, if_neg (not_or.mpr ⟨h1, h2⟩)]

theorem parseStrAux_backslash (d : Char) (ds acc : List Char) :
    parseStrAux ('\\' :: d :: ds) acc = parseStrAux ds (d :: acc) := rfl

theorem parseStrAux_quote (cs acc : List Char) :
    parseStrAux ('\"' :: cs) acc = some (String.mk acc.reverse, cs) := by
  rw [parseStrAux.eq_def]
  dsimp only
  rw [if_neg (show ¬('\"' : Char) = '\\' by decide), if_pos rfl]

theorem parseStrAux_other (c : Char) (cs acc : List Char) (h1 : c ≠ '\\') (h2 : c ≠ '\"') :
    parseStrAux (c :: cs) acc = parseStrAux cs (c :: acc) := by
  rw [parseStrAux.eq_def]
  dsimp only
  rw [if_neg h1, if_neg h2]

theorem parseStrAux_escape (l : List Char) :
    ∀ (acc rest : List Char),
      parseStrAux (escapeList l ++ ('\"' :: rest)) acc = some (String.mk (acc.reverse ++ l), rest) := by
  induction l with
  | nil =>
    intro acc rest
    simp [show escapeList [] = [] from rfl, parseStrAux_quote]
  | cons c cs ih =>
    intro acc rest
    by_cases h : c = '\\' ∨ c = '\"'
    · rw [escapeList_esc c cs h, List.cons_append, List.cons_append, parseStrAux_backslash, ih]
      simp
    · push_neg at h
      rw [escapeList_other c cs h.1 h.2, List.cons_append, parseStrAux_other c _ _ h.1 h.2, ih]
      simp

theorem parseStrL_enc (s : String) (rest : List Char) :
    parseStrL (encStringL s ++ rest) = some (s, rest) := by
  have h : encStringL s ++ rest = '\"' :: (escapeList s.data ++ ('\"' :: rest)) := by
    simp [encStringL]
  rw [h]
  rw [show ∀ x, parseStrL ('\"' :: x) = parseStrAux x [] from fun x => rfl]
  rw [parseStrAux_escape]
  simp

theorem parsePairL_enc (p : String × String) (rest : List Char) :
    parsePairL (encPairL p ++ rest) = some (p, rest) := by
  have h : encPairL p ++ rest = encStringL p.1 ++ (':' :: (encStringL p.2 ++ rest)) := by
    simp [encPairL]
  rw [h]
  simp [parsePairL, parseStrL_enc]

theorem parseItemsL_enc {α : Type} (elem : List Char → Option (α × List Char))
    (encA : α → List Char) (close : Char) (hclose : close ≠ ',')
    (helem : ∀ a rest, elem (encA a ++ rest) = some (a, rest)) :
    ∀ (l : List α), l ≠ [] → ∀ (fuel : Nat), l.length ≤ fuel → ∀ (rest : List Char),
      parseItemsL elem close fuel (encItemsL encA l ++ (close :: rest)) = some (l, rest) := by
  intro l
  induction l with
  | nil => intro hl; exact absurd rfl hl
  | cons a as ih =>
    intro _ fuel hf rest
    cases fuel with
    | zero => simp at hf
    | succ n =>
      cases as with
      | nil =>
        rw [show encItemsL encA [a] = encA a from rfl]
        rw [parseItemsL.eq_def]
        dsimp only
        rw [helem]
        simp
      | cons b bs =>
        have hstep : encItemsL encA (a :: b :: bs) ++ (close :: rest)
            = encA a ++ (',' :: (encItemsL encA (b :: bs) ++ (close :: rest))) := by
          rw [show encItemsL encA (a :: b :: bs) = encA a ++ ',' :: encItemsL encA (b :: bs)
            from rfl]
          simp
        rw [hstep, parseItemsL.eq_def]
        dsimp only
        rw [helem]
        have hlen : (b :: bs).length ≤ n := by
          simp only [List.length_cons] at hf ⊢
          omega
        simp only [if_neg (show ¬(',' = close) from fun hh => hclose hh.symm), if_pos rfl,
          ih (by simp) n hlen rest]
        simp

theorem encItemsL_length_ge {α : Type} (encA : α → List Char) (hne : ∀ a, encA a ≠ []) :
    ∀ l : List α, l.length ≤ (encItemsL encA l).length := by
  intro l
  induction l with
  | nil => simp [encItemsL]
  | cons a as ih =>
    have h1 : 0 < (encA a).length := List.length_pos.mpr (hne a)
    cases as with
    | nil =>
      rw [show encItemsL encA [a] = encA a from rfl]
      simpa using h1
    | cons b bs =>
      rw [show encItemsL encA (a :: b :: bs) = encA a ++ ',' :: encItemsL encA (b :: bs)
        from rfl]
      simp only [List.length_append, List.length_cons] at ih ⊢
      omega

theorem parseContainerL_enc {α : Type} (openC closeC : Char)
    (elem : List Char → Option (α × List Char)) (encA : α → List Char)
    (hclose : closeC ≠ ',')
    (helem : ∀ a rest, elem (encA a ++ rest) = some (a, rest))
    (hhead : ∀ a, ∃ c2 cs2, encA a = c2 :: cs2 ∧ c2 ≠ closeC) :
    ∀ (l : List α) (rest : List Char),
      parseContainerL openC closeC elem ((openC :: (encItemsL encA l ++ [closeC])) ++ rest)
        = some (l, rest) := by
  intro l rest
  cases l with
  | nil =>
    show parseContainerL openC closeC elem
      ((openC :: (encItemsL encA [] ++ [closeC])) ++ rest) = some ([], rest)
    rw [show encItemsL encA ([] : List α) = [] from rfl]
    simp [parseContainerL]
  | cons a as =>
    obtain ⟨c2, cs2, hca, hcc⟩ := hhead a
    have hne : ∀ x : α, encA x ≠ [] := by
      intro x hx
      obtain ⟨c3, cs3, hc3, _⟩ := hhead x
      rw [hc3] at hx
      exact List.noConfusion hx
    have hfirst : ∃ tl, encItemsL encA (a :: as) = c2 :: tl := by
      cases as with
      | nil => exact ⟨cs2, by rw [show encItemsL encA [a] = encA a from rfl, hca]⟩
      | cons b bs =>
        refine ⟨cs2 ++ ',' :: encItemsL encA (b :: bs), ?_⟩
        rw [show encItemsL encA (a :: b :: bs) = encA a ++ ',' :: encItemsL encA (b :: bs)
          from rfl, hca]
        simp
    obtain ⟨tl, htl⟩ := hfirst
    have hshape : (openC :: (encItemsL encA (a :: as) ++ [closeC])) ++ rest
        = openC :: (c2 :: (tl ++ (closeC :: rest))) := by
      rw [htl]
      simp
    rw [hshape]
    have hback : c2 :: (tl ++ (closeC :: rest)) = encItemsL encA (a :: as) ++ (closeC :: rest) := by
      rw [htl]
      simp
    rw [parseContainerL.eq_def]
    dsimp only
    rw [if_pos rfl, if_neg hcc, hback]
    have hfuel : (a :: as).length ≤ (encItemsL encA (a :: as) ++ (closeC :: rest)).length := by
      have := encItemsL_length_ge encA hne (a :: as)
      simp only [List.length_append]
      omega
    exact parseItemsL_enc elem encA closeC hclose helem (a :: as) (by simp)
      (encItemsL encA (a :: as) ++ (closeC :: rest)).length hfuel rest

theorem parseExactL_self (lit : List Char) : parseExactL lit lit = some [] := by
  simpa using parseExactL_append lit []

theorem parseObjL_enc (kvs : List (String × String)) (rest : List Char) :
    parseContainerL '\x7b' '\x7d' parsePairL (encObjL kvs ++ rest) = some (kvs, rest) := by
  have hhead : ∀ p : String × String, ∃ c2 cs2, encPairL p = c2 :: cs2 ∧ c2 ≠ '\x7d' := by
    intro p
    refine ⟨'\"', (escapeList p.1.data ++ ['\"']) ++ (':' :: encStringL p.2), ?_, by decide⟩
    simp [encPairL, encStringL]
  have h : encObjL kvs ++ rest = ('\x7b' :: (encItemsL encPairL kvs ++ ['\x7d'])) ++ rest := rfl
  rw [h]
  exact parseContainerL_enc '\x7b' '\x7d' parsePairL encPairL (by decide) parsePairL_enc
    hhead kvs rest

theorem parseRowErrorL_enc (e : RowError) (rest : List Char) :
    parseRowErrorL (encRowErrorL e ++ rest) = some (e, rest) := by
  have h : encRowErrorL e ++ rest
      = strL ("\x7b\"reason\":") ++ (encStringL e.reason ++ (strL (",\"message\":") ++
        (encStringL e.message ++ (strL ("\x7d") ++ rest)))) := by
    simp [encRowErrorL]
  rw [h]
  simp [parseRowErrorL, parseExactL_append, parseStrL_enc]

theorem parseErrArrL_enc (l : List RowError) (rest : List Char) :
    parseContainerL '[' ']' parseRowErrorL (encArrL encRowErrorL l ++ rest) = some (l, rest) := by
  have hhead : ∀ e : RowError, ∃ c2 cs2, encRowErrorL e = c2 :: cs2 ∧ c2 ≠ ']' := by
    intro e
    refine ⟨'\x7b', strL ("\"reason\":") ++ (encStringL e.reason ++ (strL (",\"message\":") ++
      (encStringL e.message ++ strL ("\x7d")))), ?_, by decide⟩
    simp [encRowErrorL]
    rfl
  have h : encArrL encRowErrorL l ++ rest
      = ('[' :: (encItemsL encRowErrorL l ++ [']'])) ++ rest := rfl
  rw [h]
  exact parseContainerL_enc '[' ']' parseRowErrorL encRowErrorL (by decide) parseRowErrorL_enc
    hhead l rest

theorem parseRowRejectionL_enc (r : RowRejection) (rest : List Char) :
    parseRowRejectionL (encRowRejectionL r ++ rest) = some (r, rest) := by
  have h : encRowRejectionL r ++ rest
      = strL ("\x7b\"row\":") ++ (encObjL r.row ++ (strL (",\"errors\":") ++
        (encArrL encRowErrorL r.errors ++ (strL ("\x7d") ++ rest)))) := by
    simp [encRowRejectionL]
  rw [h]
  simp [parseRowRejectionL, parseExactL_append, parseObjL_enc, parseErrArrL_enc]

theorem parseRejArrL_enc (l : List RowRejection) (rest : List Char) :
    parseContainerL '[' ']' parseRowRejectionL (encArrL encRowRejectionL l ++ rest)
      = some (l, rest) := by
  have hhead : ∀ r : RowRejection, ∃ c2 cs2, encRowRejectionL r = c2 :: cs2 ∧ c2 ≠ ']' := by
    intro r
    refine ⟨'\x7b', strL ("\"row\":") ++ (encObjL r.row ++ (strL (",\"errors\":") ++
      (encArrL encRowErrorL r.errors ++ strL ("\x7d")))), ?_, by decide⟩
    simp [encRowRejectionL]
    rfl
  have h : encArrL encRowRejectionL l ++ rest
      = ('[' :: (encItemsL encRowRejectionL l ++ [']'])) ++ rest := rfl
  rw [h]
  exact parseContainerL_enc '[' ']' parseRowRejectionL encRowRejectionL (by decide)
    parseRowRejectionL_enc hhead l rest

theorem parseErrorsFieldL_enc (o : Option (List RowRejection)) (rest : List Char) :
    parseErrorsFieldL (encErrorsFieldL o ++ rest) = some (o, rest) := by
  cases o with
  | none =>
    show parseErrorsFieldL (strL ("null") ++ rest) = some (none, rest)
    simp [parseErrorsFieldL, parseExactL_append]
  | some l =>
    show parseErrorsFieldL (encArrL encRowRejectionL l ++ rest) = some (some l, rest)
    have hn : parseExactL (strL ("null")) (encArrL encRowRejectionL l ++ rest) = none := by
      have hlit : strL ("null") = ['n', 'u', 'l', 'l'] := rfl
      rw [show encArrL encRowRejectionL l ++ rest
        = '[' :: ((encItemsL encRowRejectionL l ++ [']']) ++ rest) from by simp [encArrL], hlit]
      rfl
    simp [parseErrorsFieldL, hn, parseRejArrL_enc]

/-- The serialization of a collaborator error is lossless: the decoder
recovers the error, in particular its per-row rejection payload. -/
theorem decodeJsError_stringify (ex : JsError) :
    decodeJsError (jsonStringifyError ex) = some ex := by
  have h : (jsonStringifyError ex).data
      = strL ("\x7b\"name\":") ++ (encStringL ex.name ++ (strL (",\"message\":") ++
        (encStringL ex.message ++ (strL (",\"errors\":") ++ (encErrorsFieldL ex.errors ++
        (strL (",\"extra\":") ++ (encObjL ex.extra ++ strL ("\x7d")))))))) := by
    show encJsErrorL ex = _
    simp [encJsErrorL]
  have hobj : ∀ rest, parseContainerL '\x7b' '\x7d' parsePairL (encObjL ex.extra ++ rest)
      = some (ex.extra, rest) := fun rest => parseObjL_enc ex.extra rest
  simp [decodeJsError, h, parseExactL_append, parseExactL_self, parseStrL_enc,
    parseErrorsFieldL_enc, hobj]

/-! Operation traces.  `Op` packages one public method invocation
together with the outcomes its remote calls would return; `runOp`
dispatches to the embeddings above, `execState` folds a call history
over a facade state.  This lets claims about "any facade instance"
quantify over arbitrary histories starting from the constructor
state. -/

/-- Uniform value returned by a facade operation. -/
inductive OpValue where
  | unitV
  | datasetV (h : DatasetHandle)
  | tableV (h : TableHandle)
  | rowsV (rows : List Row)
  | boolV (b : Bool)
deriving DecidableEq

/-- One public method invocation with the outcomes of its remote calls. -/
inductive Op where
  | opInit (getDatasetsResult : Except JsError Unit)
  | opCreateDataSet (datasetName : String) (existsResult : Except JsError Bool)
      (createResult : Except JsError Unit)
  | opGetDataset (datasetName : String)
  | opCreateTable (datasetName tableName : String) (schema : Option Schema)
      (existsResult : Except JsError Bool) (createResult : Except JsError Unit)
  | opGetTable (datasetName tableName : String)
  | opInsert (rows : List Row) (datasetName tableName : String)
      (insertResult : Except JsError Unit)
  | opQuery (rawQuery : String) (useLegacySql : Bool) (maximumBillingTier : Nat)
      (jobResult : Except JsError Unit) (waitResult : Except JsError QueryResults)
  | opQueryStream (queryText : String) (useLegacySql : Bool) (maximumBillingTier : Nat)
  | opUpdateAvailable (tableName datasetName : String)
      (metadataResult : Except JsError Metadata)

/-- Run one invocation on a facade state. -/
def runOp (st : BQState) : Op → OpResult OpValue
  | .opInit r =>
    let r0 := init st r
    ⟨r0.result.map (fun _ => OpValue.unitV), r0.state, r0.calls⟩
  | .opCreateDataSet n pe pc =>
    let r0 := createDataSet st n pe pc
    ⟨r0.result.map OpValue.datasetV, r0.state, r0.calls⟩
  | .opGetDataset n =>
    ⟨(getDataset st n).map OpValue.datasetV, st, []⟩
  | .opCreateTable d t s pe pc =>
    let r0 := createTable st d t s pe pc
    ⟨r0.result.map OpValue.tableV, r0.state, r0.calls⟩
  | .opGetTable d t =>
    ⟨(getTable st d t).map OpValue.tableV, st, []⟩
  | .opInsert rows d t r =>
    let r0 := insert st rows d t r
    ⟨r0.result.map (fun _ => OpValue.unitV), r0.state, r0.calls⟩
  | .opQuery q l m j w =>
    let r0 := query st q l m j w
    ⟨r0.result.map OpValue.rowsV, r0.state, r0.calls⟩
  | .opQueryStream q l m =>
    let r0 := queryStream st q l m
    ⟨r0.result.map (fun _ => OpValue.unitV), r0.state, r0.calls⟩
  | .opUpdateAvailable t d m =>
    let r0 := updateAvailable st t d m
    ⟨r0.result.map OpValue.boolV, r0.state, r0.calls⟩

/-- The facade state after one invocation. -/
def applyOp (st : BQState) (op : Op) : BQState := (runOp st op).state

/-- The facade state after a call history. -/
def execState (st : BQState) (ops : List Op) : BQState := ops.foldl applyOp st

/-- Whether a call history contains a successful `createTable` whose cache
key `datasetName ++ "." ++ tableName` equals `k`, evaluated along the
states the history produces. -/
def createTableKeyRan (st : BQState) : List Op → String → Bool
  | [], _ => false
  | op :: rest, k =>
    (match op with
     | .opCreateTable d t s pe pc =>
       decide (d ++ "." ++ t = k) && exOk (createTable st d t s pe pc).result
     | _ => false) || createTableKeyRan (applyOp st op) rest k

/-- Whether a call history contains a successful `createTable` with
exactly the argument pair `(d0, t0)`. -/
def createTablePairRan (st : BQState) : List Op → String → String → Bool
  | [], _, _ => false
  | op :: rest, d0, t0 =>
    (match op with
     | .opCreateTable d t s pe pc =>
       decide (d = d0) && (decide (t = t0) && exOk (createTable st d t s pe pc).result)
     | _ => false) || createTablePairRan (applyOp st op) rest d0 t0

/-- Whether a call history contains a successful `init`. -/
def hasInitSuccess : List Op → Bool
  | [] => false
  | op :: rest =>
    (match op with
     | .opInit (Except.ok _) => true
     | _ => false) || hasInitSuccess rest

theorem recLookup_cons_isSome {α : Type} (k0 : String) (v : α) (m : List (String × α))
    (k : String) :
    (recLookup ((k0, v) :: m) k).isSome = (decide (k0 = k) || (recLookup m k).isSome) := by
  by_cases h : k0 = k <;> simp [recLookup, h]

theorem createDataSet_tables (st : BQState) (n : String) (pe : Except JsError Bool)
    (pc : Except JsError Unit) : (createDataSet st n pe pc).state.tables = st.tables := by
  by_cases hc : st.clientInit = false
  · simp [createDataSet, hc]
  · rcases pe with e | b
    · simp [createDataSet, hc]
    · by_cases hb : b = false
      · rcases pc with e2 | u <;> simp [createDataSet, hc, hb]
      · simp [createDataSet, hc, hb]

theorem createTable_tables (st : BQState) (d t : String) (s : Option Schema)
    (pe : Except JsError Bool) (pc : Except JsError Unit) :
    ((createTable st d t s pe pc).state.tables = st.tables
        ∧ exOk (createTable st d t s pe pc).result = false)
    ∨ (∃ h, (createTable st d t s pe pc).state.tables = (d ++ "." ++ t, h) :: st.tables
        ∧ exOk (createTable st d t s pe pc).result = true) := by
  cases hd : recLookup st.datasets d with
  | none => left; simp [createTable, getDataset, hd, exOk]
  | some dh =>
    rcases pe with e | b
    · left; simp [createTable, getDataset, hd, exOk]
    · by_cases hb : b = false
      · cases s with
        | none => left; simp [createTable, getDataset, hd, hb, exOk]
        | some sch =>
          rcases pc with e2 | u
          · left; simp [createTable, getDataset, hd, hb, exOk]
          · right
            refine ⟨⟨dh.name, t⟩, ?_, ?_⟩ <;> simp [createTable, getDataset, hd, hb, exOk]
      · right
        refine ⟨⟨dh.name, t⟩, ?_, ?_⟩ <;> simp [createTable, getDataset, hd, hb, exOk]

theorem insert_state (st : BQState) (rows : List Row) (d t : String)
    (r : Except JsError Unit) : (insert st rows d t r).state = st := by
  cases hg : getTable st d t <;> rcases r with e | u <;>
    (simp [insert, hg]; try (split <;> rfl))

theorem query_state (st : BQState) (q : String) (l : Bool) (m : Nat)
    (j : Except JsError Unit) (w : Except JsError QueryResults) :
    (query st q l m j w).state = st := by
  by_cases hc : st.clientInit = false
  · simp [query, hc]
  · rcases j with e | u
    · simp [query, hc]
    · rcases w with e | res
      · simp [query, hc]
      · cases he : res.response.errors with
        | some errs => simp [query, hc, he]
        | none =>
          by_cases hj : res.response.jobComplete = false <;> simp [query, hc, he, hj]

theorem queryStream_state (st : BQState) (q : String) (l : Bool) (m : Nat) :
    (queryStream st q l m).state = st := by
  by_cases hc : st.clientInit = false <;> simp [queryStream, hc]

theorem updateAvailable_state (st : BQState) (t d : String)
    (m : Except JsError Metadata) : (updateAvailable st t d m).state = st := by
  cases hg : getTable st d t
  · simp [updateAvailable, hg]
  · rcases m with e | meta
    · simp [updateAvailable, hg]
    · cases hb : meta.streamingBuffer <;> simp [updateAvailable, hg, hb]

theorem recLookup_isSome_applyOp (st : BQState) (op : Op) (k : String) :
    (recLookup (applyOp st op).tables k).isSome
      = ((recLookup st.tables k).isSome ||
          match op with
          | .opCreateTable d t s pe pc =>
            decide (d ++ "." ++ t = k) && exOk (createTable st d t s pe pc).result
          | _ => false) := by
  cases op with
  | opCreateTable d t s pe pc =>
    rcases createTable_tables st d t s pe pc with ⟨heq, hok⟩ | ⟨h, heq, hok⟩
    · simp [applyOp, runOp, heq, hok]
    · simp only [applyOp, runOp, heq, hok, recLookup_cons_isSome, Bool.and_true]
      cases hdec : decide (d ++ "." ++ t = k) <;>
        cases hls : (recLookup st.tables k).isSome <;> rfl
  | opInit r => rcases r with e | u <;> simp [applyOp, runOp, init]
  | opCreateDataSet n pe pc => simp [applyOp, runOp, createDataSet_tables]
  | opGetDataset n => simp [applyOp, runOp]
  | opGetTable d t => simp [applyOp, runOp]
  | opInsert rows d t r => simp [applyOp, runOp, insert_state]
  | opQuery q l m j w => simp [applyOp, runOp, query_state]
  | opQueryStream q l m => simp [applyOp, runOp, queryStream_state]
  | opUpdateAvailable t d m => simp [applyOp, runOp, updateAvailable_state]

theorem recLookup_isSome_execState (ops : List Op) :
    ∀ (st : BQState) (k : String),
      (recLookup (execState st ops).tables k).isSome
        = ((recLookup st.tables k).isSome || createTableKeyRan st ops k) := by
  induction ops with
  | nil => intro st k; simp [execState, createTableKeyRan]
  | cons op rest ih =>
    intro st k
    show (recLookup (execState (applyOp st op) rest).tables k).isSome = _
    rw [ih (applyOp st op) k, recLookup_isSome_applyOp]
    rw [show createTableKeyRan st (op :: rest) k
      = ((match op with
          | .opCreateTable d t s pe pc =>
            decide (d ++ "." ++ t = k) && exOk (createTable st d t s pe pc).result
          | _ => false) || createTableKeyRan (applyOp st op) rest k) from rfl]
    rw [Bool.or_assoc]

theorem getTable_isOk (st : BQState) (d t : String) :
    exOk (getTable st d t) = (recLookup st.tables (d ++ "." ++ t)).isSome := by
  cases h : recLookup st.tables (d ++ "." ++ t) <;> simp [getTable, h, exOk]

theorem hasInitSuccess_cons (op : Op) (rest : List Op) :
    hasInitSuccess (op :: rest)
      = ((match op with | Op.opInit (Except.ok _) => true | _ => false)
          || hasInitSuccess rest) := rfl

theorem execState_preInit (ops : List Op) (h : hasInitSuccess ops = false) :
    execState initialState ops = initialState := by
  induction ops with
  | nil => rfl
  | cons op rest ih =>
    rw [hasInitSuccess_cons] at h
    obtain ⟨h1, h2⟩ := Bool.or_eq_false_iff.mp h
    have hstep : applyOp initialState op = initialState := by
      cases op with
      | opInit r =>
        rcases r with e | u
        · rfl
        · simp at h1
      | opCreateDataSet n pe pc => rfl
      | opGetDataset n => rfl
      | opCreateTable d t s pe pc => rfl
      | opGetTable d t => rfl
      | opInsert rows d t r => rfl
      | opQuery q l m j w => rfl
      | opQueryStream q l m => rfl
      | opUpdateAvailable t d m => rfl
    show execState (applyOp initialState op) rest = initialState
    rw [hstep]
    exact ih h2

/-- The message carried by a facade error (for the `nullClient`
constructor, the TypeError text of the null property read; for
`rethrown`, the collaborator error's message). -/
def errorMessage : FacadeError → String
  | .nullClient prop => "TypeError: Cannot read properties of null (reading " ++ prop ++ ")"
  | .datasetNotFound m => m
  | .tableNotFound m => m
  | .schemaRequired m => m
  | .partialInsert m => m
  | .waitFailure m => m
  | .queryExecutionFailure m => m
  | .queryIncomplete m => m
  | .rethrown e => e.message

/-- Whether `pat` is a prefix of the second list. -/
def startsWithL : List Char → List Char → Bool
  | [], _ => true
  | _ :: _, [] => false
  | p :: ps, c :: cs => if p = c then startsWithL ps cs else false

/-- Whether `pat` occurs as a contiguous substring. -/
def containsSub (pat : List Char) : List Char → Bool
  | [] => startsWithL pat []
  | c :: cs => startsWithL pat (c :: cs) || containsSub pat cs

/-! Claim theorems.  Concrete fixtures shared by witnesses follow. -/

/-- A facade state right after a successful `init` (caches still empty). -/
def stReady : BQState := ⟨true, [], []⟩

/-- A facade state with dataset "d1" and table "d1"."t1" provisioned. -/
def stWithTable : BQState := ⟨true, [("d1", ⟨"d1"⟩)], [("d1.t1", ⟨"d1", "t1"⟩)]⟩

/-- C1: for every query response whose errors field is a non-empty array
and whose jobComplete field is true, `query` fails with the execution
failure whose message joins all response error messages with ";", and
never with the incompleteness/pagination error: the error check precedes
the completeness check. -/
theorem C1_query_errors_precede_completeness (st : BQState) (q : String) (l : Bool) (m : Nat)
    (res : QueryResults) (errs : List ResponseError)
    (hc : st.clientInit = true)
    (herr : res.response.errors = some errs) (hne : errs ≠ [])
    (hcomp : res.response.jobComplete = true) :
    (query st q l m (.ok ()) (.ok res)).result
      = .error (.queryExecutionFailure (String.intercalate ";" (errs.map ResponseError.message)))
    ∧ ∀ msg, (query st q l m (.ok ()) (.ok res)).result ≠ .error (.queryIncomplete msg) := by
  have hq : (query st q l m (.ok ()) (.ok res)).result
      = .error (.queryExecutionFailure (String.intercalate ";" (errs.map ResponseError.message))) := by
    simp [query, hc, herr]
  refine ⟨hq, fun msg hmsg => ?_⟩
  rw [hq] at hmsg
  exact FacadeError.noConfusion (Except.error.inj hmsg)

/-- Concrete query result for the C1 witness: one execution error and a
complete job. -/
def resC1 : QueryResults := ⟨[], ⟨some [⟨"invalidQuery", "boom"⟩], true⟩⟩

/-- C1 witness at a concrete response. -/
theorem C1_witness :
    (query stReady "q" false 3 (Except.ok ()) (Except.ok resC1)).result
        = Except.error (FacadeError.queryExecutionFailure "boom")
    ∧ ∀ msg, (query stReady "q" false 3 (Except.ok ()) (Except.ok resC1)).result
        ≠ Except.error (FacadeError.queryIncomplete msg) :=
  C1_query_errors_precede_completeness stReady "q" false 3 resC1
    [⟨"invalidQuery", "boom"⟩] rfl rfl (by decide) rfl

/-- C2: calling createDataSet twice in sequence with the remote probe and
create succeeding never errors, yields the handle of the same logical
dataset both times, and leaves that handle as the cache entry under the
name after each call. -/
theorem C2_createDataSet_idempotent (st : BQState) (name : String) (e1 e2 : Bool)
    (hc : st.clientInit = true) :
    (createDataSet st name (.ok e1) (.ok ())).result = .ok ⟨name⟩
    ∧ (createDataSet (createDataSet st name (.ok e1) (.ok ())).state name
        (.ok e2) (.ok ())).result = .ok ⟨name⟩
    ∧ recLookup (createDataSet st name (.ok e1) (.ok ())).state.datasets name = some ⟨name⟩
    ∧ recLookup (createDataSet (createDataSet st name (.ok e1) (.ok ())).state name
        (.ok e2) (.ok ())).state.datasets name = some ⟨name⟩ := by
  have hstep : ∀ st2 : BQState, st2.clientInit = true → ∀ e : Bool,
      (createDataSet st2 name (.ok e) (.ok ())).result = .ok ⟨name⟩
      ∧ (createDataSet st2 name (.ok e) (.ok ())).state
          = { st2 with datasets := (name, ⟨name⟩) :: st2.datasets } := by
    intro st2 hc2 e
    by_cases he : e = false <;> simp [createDataSet, hc2, he]
  obtain ⟨h1r, h1s⟩ := hstep st hc e1
  have hc1 : (createDataSet st name (.ok e1) (.ok ())).state.clientInit = true := by
    rw [h1s]
    exact hc
  obtain ⟨h2r, h2s⟩ := hstep _ hc1 e2
  refine ⟨h1r, h2r, ?_, ?_⟩
  · rw [h1s]; simp [recLookup]
  · rw [h2s]; simp [recLookup]

/-- C2 witness: remote reports absent on the first call and present on
the second. -/
theorem C2_witness :
    (createDataSet stReady "d1" (Except.ok false) (Except.ok ())).result
        = Except.ok ⟨"d1"⟩
    ∧ (createDataSet (createDataSet stReady "d1" (Except.ok false) (Except.ok ())).state "d1"
        (Except.ok true) (Except.ok ())).result = Except.ok ⟨"d1"⟩
    ∧ recLookup (createDataSet stReady "d1" (Except.ok false) (Except.ok ())).state.datasets "d1"
        = some ⟨"d1"⟩
    ∧ recLookup (createDataSet (createDataSet stReady "d1" (Except.ok false)
        (Except.ok ())).state "d1" (Except.ok true) (Except.ok ())).state.datasets "d1"
        = some ⟨"d1"⟩ :=
  C2_createDataSet_idempotent stReady "d1" false true rfl

/-- C3: createTable with the parent dataset cached, the remote probe
reporting the table absent, and no schema given fails with the
schema-required error, leaves the whole state (hence the table cache)
unchanged, and issues no remote create call (only the existence
probe). -/
theorem C3_createTable_schema_required (st : BQState) (d t : String) (dh : DatasetHandle)
    (pc : Except JsError Unit)
    (hcached : recLookup st.datasets d = some dh) :
    (createTable st d t none (.ok false) pc).result
      = .error (.schemaRequired
          ("\"" ++ d ++ "." ++ t ++ "\" does not exists and no schema was given"))
    ∧ (createTable st d t none (.ok false) pc).state = st
    ∧ (createTable st d t none (.ok false) pc).calls = [.tableExists d t] := by
  refine ⟨?_, ?_, ?_⟩ <;> simp [createTable, getDataset, hcached]

/-- C3 witness at a concrete cached dataset. -/
theorem C3_witness :
    (createTable stWithTable "d1" "t2" none (Except.ok false) (Except.ok ())).result
        = Except.error (FacadeError.schemaRequired
            "\"d1.t2\" does not exists and no schema was given")
    ∧ (createTable stWithTable "d1" "t2" none (Except.ok false) (Except.ok ())).state
        = stWithTable
    ∧ (createTable stWithTable "d1" "t2" none (Except.ok false) (Except.ok ())).calls
        = [RemoteCall.tableExists "d1" "t2"] :=
  C3_createTable_schema_required stWithTable "d1" "t2" ⟨"d1"⟩ (Except.ok ()) rfl

/-- C4 (amended): on any facade instance whose call history contains no
successful init, every operation fails — createDataSet, query and
queryStream with the TypeError from dereferencing the null client,
createTable, insert and updateAvailable with the not-found error from
the still-empty caches — rather than with a dedicated "uninitialized
connection" error. -/
theorem C4_pre_init_operations_fail (ops : List Op) (h : hasInitSuccess ops = false) :
    (∀ n pe pc, (createDataSet (execState initialState ops) n pe pc).result
        = .error (.nullClient "dataset"))
    ∧ (∀ d t s pe pc, (createTable (execState initialState ops) d t s pe pc).result
        = .error (.datasetNotFound ("Dataset \"" ++ d ++ "\" not found")))
    ∧ (∀ rows d t r, (insert (execState initialState ops) rows d t r).result
        = .error (.tableNotFound ("Table \"<" ++ t ++ ">\" not found in \"<" ++ d ++ ">\"")))
    ∧ (∀ q l m j w, (query (execState initialState ops) q l m j w).result
        = .error (.nullClient "createQueryJob"))
    ∧ (∀ q l m, (queryStream (execState initialState ops) q l m).result
        = .error (.nullClient "createQueryStream"))
    ∧ (∀ t d m, (updateAvailable (execState initialState ops) t d m).result
        = .error (.tableNotFound ("Table \"<" ++ t ++ ">\" not found in \"<" ++ d ++ ">\""))) := by
  rw [execState_preInit ops h]
  refine ⟨?_, ?_, ?_, ?_, ?_, ?_⟩
  · intro n pe pc
    simp [createDataSet, initialState]
  · intro d t s pe pc
    simp [createTable, getDataset, initialState, recLookup]
  · intro rows d t r
    simp [insert, getTable, initialState, recLookup]
  · intro q l m j w
    simp [query, initialState]
  · intro q l m
    simp [queryStream, initialState]
  · intro t d m
    simp [updateAvailable, getTable, initialState, recLookup]

/-- C4 witness: the empty history (a freshly constructed facade). -/
theorem C4_witness :
    (createDataSet (execState initialState []) "d1" (Except.ok true) (Except.ok ())).result
        = Except.error (FacadeError.nullClient "dataset")
    ∧ (createTable (execState initialState []) "d1" "t1" none (Except.ok true)
        (Except.ok ())).result
        = Except.error (FacadeError.datasetNotFound "Dataset \"d1\" not found")
    ∧ (query (execState initialState []) "q" false 3 (Except.ok ())
        (Except.error ⟨"E", "m", none, []⟩)).result
        = Except.error (FacadeError.nullClient "createQueryJob") := by
  have h := C4_pre_init_operations_fail [] rfl
  exact ⟨h.1 "d1" (Except.ok true) (Except.ok ()),
    h.2.1 "d1" "t1" none (Except.ok true) (Except.ok ()),
    h.2.2.2.1 "q" false 3 (Except.ok ()) (Except.error ⟨"E", "m", none, []⟩)⟩

/-- C4 counterexample: before init, createTable fails with the ordinary
dataset-not-found ReferenceError and createDataSet with the null-client
TypeError; neither message mentions an uninitialized connection, so the
claim's dedicated "uninitialized connection" error does not exist in the
code. -/
theorem C4_counterexample :
    (createTable initialState "d1" "t1" none (Except.ok true) (Except.ok ())).result
      = Except.error (FacadeError.datasetNotFound "Dataset \"d1\" not found")
    ∧ containsSub (strL ("uninitialized")) (strL (errorMessage
        (FacadeError.datasetNotFound "Dataset \"d1\" not found"))) = false
    ∧ (createDataSet initialState "d1" (Except.ok true) (Except.ok ())).result
      = Except.error (FacadeError.nullClient "dataset")
    ∧ containsSub (strL ("uninitialized")) (strL (errorMessage
        (FacadeError.nullClient "dataset"))) = false := by
  refine ⟨rfl, by decide, rfl, by decide⟩

/-- C5 (amended): the table cache is keyed by the concatenation
`datasetName ++ "." ++ tableName`; a handle is visible through
`getTable d t` exactly when the history contains a successful
createTable whose key string equals `d ++ "." ++ t` — which, when names
contain ".", can be a createTable of a different (dataset, table)
pair. -/
theorem C5_table_visibility (ops : List Op) (d t : String) :
    exOk (getTable (execState initialState ops) d t)
      = createTableKeyRan initialState ops (d ++ "." ++ t) := by
  rw [getTable_isOk, recLookup_isSome_execState]
  simp [initialState, recLookup]

/-- History provisioning only dataset "a.b" and table ("a.b", "c"). -/
def collisionOps : List Op :=
  [Op.opInit (Except.ok ()),
   Op.opCreateDataSet "a.b" (Except.ok true) (Except.ok ()),
   Op.opCreateTable "a.b" "c" none (Except.ok true) (Except.ok ())]

/-- C5 counterexample: after creating only table ("a.b","c"), the handle
is visible through `getTable "a" "b.c"` — the same cache entry as
("a.b","c") — although createTable("a","b.c") never completed, so
distinct pairs do not have distinct entries and the visibility
biconditional fails at the pair level. -/
theorem C5_counterexample :
    getTable (execState initialState collisionOps) "a" "b.c" = Except.ok ⟨"a.b", "c"⟩
    ∧ createTablePairRan initialState collisionOps "a" "b.c" = false
    ∧ getTable (execState initialState collisionOps) "a" "b.c"
        = getTable (execState initialState collisionOps) "a.b" "c"
    ∧ (("a", "b.c") : String × String) ≠ ("a.b", "c") := by
  refine ⟨by decide, by decide, by decide, by decide⟩

/-- C6: for every cached table, updateAvailable with a successful live
metadata fetch returns true exactly when the metadata's streamingBuffer
field is absent/null and false otherwise, whatever the rest of the cache
holds. -/
theorem C6_updateAvailable_iff_no_buffer (st : BQState) (tbl d : String) (h : TableHandle)
    (meta : Metadata) (hcached : recLookup st.tables (d ++ "." ++ tbl) = some h) :
    (updateAvailable st tbl d (.ok meta)).result = .ok meta.streamingBuffer.isNone := by
  cases hb : meta.streamingBuffer <;> simp [updateAvailable, getTable, hcached, hb]

/-- C6 witness: a table with no streaming buffer and one with a buffer. -/
theorem C6_witness :
    (updateAvailable stWithTable "t1" "d1" (Except.ok ⟨none⟩)).result = Except.ok true
    ∧ (updateAvailable stWithTable "t1" "d1"
        (Except.ok ⟨some ⟨10, 1024⟩⟩)).result = Except.ok false :=
  ⟨C6_updateAvailable_iff_no_buffer stWithTable "t1" "d1" ⟨"d1", "t1"⟩ ⟨none⟩ rfl,
   C6_updateAvailable_iff_no_buffer stWithTable "t1" "d1" ⟨"d1", "t1"⟩ ⟨some ⟨10, 1024⟩⟩ rfl⟩

/-- C7: when the collaborator reports a partial failure on insert, the
raised error is the serialized rejection payload, from which the decoder
recovers the original error object (with its per-row rejection
structure) losslessly, and that error is distinct from any
passed-through transport error. -/
theorem C7_insert_partial_failure_lossless (st : BQState) (rows : List Row) (d t : String)
    (ex : JsError) (h : TableHandle)
    (hcached : recLookup st.tables (d ++ "." ++ t) = some h)
    (hname : ex.name = "PartialFailureError") :
    (insert st rows d t (.error ex)).result = .error (.partialInsert (jsonStringifyError ex))
    ∧ decodeJsError (jsonStringifyError ex) = some ex
    ∧ ∀ ex2, FacadeError.partialInsert (jsonStringifyError ex) ≠ FacadeError.rethrown ex2 := by
  refine ⟨?_, decodeJsError_stringify ex, fun ex2 hh => FacadeError.noConfusion hh⟩
  simp [insert, getTable, hcached, hname]

/-- Concrete partial failure: one rejected row with one error. -/
def exPartial : JsError :=
  ⟨"PartialFailureError", "A failure occurred during this request.",
    some [⟨[("a", "1")], [⟨"invalid", "no such field"⟩]⟩],
    [("respStatus", "200")]⟩

/-- C7 witness at a concrete partial failure. -/
theorem C7_witness :
    (insert stWithTable [] "d1" "t1" (Except.error exPartial)).result
        = Except.error (FacadeError.partialInsert (jsonStringifyError exPartial))
    ∧ decodeJsError (jsonStringifyError exPartial) = some exPartial
    ∧ ∀ ex2, FacadeError.partialInsert (jsonStringifyError exPartial)
        ≠ FacadeError.rethrown ex2 :=
  C7_insert_partial_failure_lossless stWithTable [] "d1" "t1" exPartial ⟨"d1", "t1"⟩ rfl rfl

/-- C8 (amended): insert rethrows non-partial-failure collaborator errors
unchanged, and query propagates createQueryJob errors unchanged, but the
query wait call replaces a failure with a fresh error carrying only the
original message. -/
theorem C8_transport_passthrough (st : BQState) :
    (∀ rows d t (ex : JsError) (h : TableHandle),
        recLookup st.tables (d ++ "." ++ t) = some h →
        ex.name ≠ "PartialFailureError" →
        (insert st rows d t (.error ex)).result = .error (.rethrown ex))
    ∧ (∀ q l m (ex : JsError) w, st.clientInit = true →
        (query st q l m (.error ex) w).result = .error (.rethrown ex))
    ∧ (∀ q l m (ex : JsError), st.clientInit = true →
        (query st q l m (.ok ()) (.error ex)).result = .error (.waitFailure ex.message)) := by
  refine ⟨?_, ?_, ?_⟩
  · intro rows d t ex h hcached hname
    simp [insert, getTable, hcached, hname]
  · intro q l m ex w hc
    simp [query, hc]
  · intro q l m ex hc
    simp [query, hc]

/-- Concrete non-partial-failure transport error with extra payload. -/
def exTransport : JsError := ⟨"ApiError", "rate limit exceeded", none, [("code", "429")]⟩

/-- C8 witness at concrete errors. -/
theorem C8_witness :
    (insert stWithTable [] "d1" "t1" (Except.error exTransport)).result
        = Except.error (FacadeError.rethrown exTransport)
    ∧ (query stReady "q" false 3 (Except.error exTransport)
        (Except.ok ⟨[], ⟨none, true⟩⟩)).result
        = Except.error (FacadeError.rethrown exTransport)
    ∧ (query stReady "q" false 3 (Except.ok ()) (Except.error exTransport)).result
        = Except.error (FacadeError.waitFailure "rate limit exceeded") :=
  ⟨(C8_transport_passthrough stWithTable).1 [] "d1" "t1" exTransport ⟨"d1", "t1"⟩ rfl (by decide),
   (C8_transport_passthrough stReady).2.1 "q" false 3 exTransport (Except.ok ⟨[], ⟨none, true⟩⟩) rfl,
   (C8_transport_passthrough stReady).2.2 "q" false 3 exTransport rfl⟩

/-- C8 counterexample: for a wait-call failure, the error raised by query
is a fresh error holding only the message, not the original collaborator
error object — the claim's "propagated unchanged" fails for the query
wait call. -/
theorem C8_counterexample :
    (query stReady "q" false 3 (Except.ok ()) (Except.error exTransport)).result
      = Except.error (FacadeError.waitFailure "rate limit exceeded")
    ∧ (query stReady "q" false 3 (Except.ok ()) (Except.error exTransport)).result
      ≠ Except.error (FacadeError.rethrown exTransport) := by
  refine ⟨by decide, by decide⟩

/-- C9: getDataset and getTable are pure cache lookups: when the key is
absent they fail with the not-found error, when present they return the
cached handle, and in either case they change no state and issue no
remote call. -/
theorem C9_get_lookups (st : BQState) (name d t : String) :
    ((recLookup st.datasets name = none →
        getDataset st name = .error (.datasetNotFound ("Dataset \"" ++ name ++ "\" not found")))
    ∧ (∀ h, recLookup st.datasets name = some h → getDataset st name = .ok h))
    ∧ ((recLookup st.tables (d ++ "." ++ t) = none →
        getTable st d t = .error (.tableNotFound
          ("Table \"<" ++ t ++ ">\" not found in \"<" ++ d ++ ">\"")))
    ∧ (∀ h, recLookup st.tables (d ++ "." ++ t) = some h → getTable st d t = .ok h))
    ∧ (runOp st (.opGetDataset name)).state = st
    ∧ (runOp st (.opGetDataset name)).calls = []
    ∧ (runOp st (.opGetTable d t)).state = st
    ∧ (runOp st (.opGetTable d t)).calls = [] := by
  refine ⟨⟨?_, ?_⟩, ⟨?_, ?_⟩, rfl, rfl, rfl, rfl⟩
  · intro hn
    simp [getDataset, hn]
  · intro h hs
    simp [getDataset, hs]
  · intro hn
    simp [getTable, hn]
  · intro h hs
    simp [getTable, hs]

/-- C9 witness: a present dataset and table, and an absent table. -/
theorem C9_witness :
    getDataset stWithTable "d1" = Except.ok ⟨"d1"⟩
    ∧ getTable stWithTable "d1" "t1" = Except.ok ⟨"d1", "t1"⟩
    ∧ getTable stWithTable "d2" "t1"
        = Except.error (FacadeError.tableNotFound "Table \"<t1>\" not found in \"<d2>\"")
    ∧ (runOp stWithTable (Op.opGetTable "d1" "t1")).calls = [] :=
  ⟨(C9_get_lookups stWithTable "d1" "d1" "t1").1.2 ⟨"d1"⟩ rfl,
   (C9_get_lookups stWithTable "d1" "d1" "t1").2.1.2 ⟨"d1", "t1"⟩ rfl,
   (C9_get_lookups stWithTable "d1" "d2" "t1").2.1.1 rfl,
   (C9_get_lookups stWithTable "d1" "d1" "t1").2.2.2.2.2⟩

/-- C10: whenever the query response's errors field is an array — the
empty array included — query fails with the execution failure joining
the messages (the empty string for the empty array) and never returns
the rows, whatever jobComplete is: the code tests only that the field is
an array, not that it is non-empty. -/
theorem C10_query_fails_on_any_errors_array (st : BQState) (q : String) (l : Bool) (m : Nat)
    (res : QueryResults) (errs : List ResponseError)
    (hc : st.clientInit = true)
    (herr : res.response.errors = some errs) :
    (query st q l m (.ok ()) (.ok res)).result
      = .error (.queryExecutionFailure (String.intercalate ";" (errs.map ResponseError.message)))
    ∧ ∀ rows, (query st q l m (.ok ()) (.ok res)).result ≠ .ok rows := by
  have hq : (query st q l m (.ok ()) (.ok res)).result
      = .error (.queryExecutionFailure
          (String.intercalate ";" (errs.map ResponseError.message))) := by
    simp [query, hc, herr]
  refine ⟨hq, fun rows hrows => ?_⟩
  rw [hq] at hrows
  exact Except.noConfusion hrows

/-- Concrete query result with an empty errors array, a complete job and
one row. -/
def resC10 : QueryResults := ⟨[[("x", "1")]], ⟨some [], true⟩⟩

/-- C10 witness: empty errors array, jobComplete true — still fails, with
the empty message. -/
theorem C10_witness :
    (query stReady "q" false 3 (Except.ok ()) (Except.ok resC10)).result
        = Except.error (FacadeError.queryExecutionFailure "")
    ∧ ∀ rows, (query stReady "q" false 3 (Except.ok ()) (Except.ok resC10)).result
        ≠ Except.ok rows :=
  C10_query_fails_on_any_errors_array stReady "q" false 3 resC10 [] rfl rfl

end BigQueryWrapper
